import Mathlib

/-!
Verification of the conversational request router and its handlers of a
construction-project collaboration backend.

The embedding models `app/graph.py` (intent router, measurement / board-foot /
sheet / price parsers, cost estimator, document relevance scorer, handler
nodes) and the chat-turn glue of `main.py` (`append_user_turn` plus the graph
dispatch).  Python floats are modelled as exact rationals (all arithmetic the
claims exercise is exact), Python `re.search` calls are modelled by
hand-translated leftmost-match scanners for the concrete patterns of the
source (for these patterns greedy digit runs never require backtracking, so
the scanners agree with the Python regex engine), and the external
collaborators (UUID validation, document/project store, completion
capability) are oracle parameters bundled in a `Collab` record.
-/

namespace Pretzel

/-- Lower-case a character sequence (models Python `str.lower` on ASCII). -/
def lowerList (l : List Char) : List Char := l.map Char.toLower

/-- Whitespace test used by `\s` and `str.strip`. -/
def isWS (c : Char) : Bool := c.isWhitespace

/-- Models Python `str.strip`: drop whitespace from both ends. -/
def stripChars (l : List Char) : List Char :=
  ((l.dropWhile isWS).reverse.dropWhile isWS).reverse

/-- Substring containment: models Python `needle in hay`. -/
def hasSub (needle : List Char) : List Char → Bool
  | [] => needle.isEmpty
  | c :: rest => needle.isPrefixOf (c :: rest) || hasSub needle rest

/-- Keyword table `project_keywords` of `route_from_text` (graph.py). -/
def project_keywords : List String :=
  ["project overview", "project summary", "about this project",
   "what is this project", "project info", "team", "members",
   "who is on this project", "who is on the team"]

/-- Keyword table `doc_keywords` of `route_from_text` (graph.py). -/
def doc_keywords : List String :=
  ["spec", "specs", "specification", "document", "documents", "docs",
   "plans", "blueprint", "rfis", "rfi", "change order", "submittal"]

/-- Keyword table `cost_keywords` of `route_from_text` (graph.py). -/
def cost_keywords : List String :=
  ["cost", "price", "total", "material", "per sheet", "per board",
   "per bf", "$"]

/-- Keyword table `board_foot_keywords` of `route_from_text` (graph.py). -/
def board_foot_keywords : List String :=
  ["board foot", "board feet", "bf"]

/-- Keyword table `sheet_keywords` of `route_from_text` (graph.py). -/
def sheet_keywords : List String :=
  ["sheet", "sheets", "drywall", "plywood", "osb", "panel", "panels",
   "sq ft", "sqft", "square feet", "sf"]

/-- Keyword table `measurement_keywords` of `route_from_text` (graph.py);
the two one-character entries are the apostrophe and the double quote. -/
def measurement_keywords : List String :=
  ["ft", "feet", "foot", "in", "inch", "inches", "\x27", "\"",
   "measurement", "convert", "stud", "2x4", "framing"]

/-- Models `any(k in text for k in kws)`. -/
def kwHit (kws : List String) (t : List Char) : Bool :=
  kws.any (fun k => hasSub k.toList t)

/-- Text preprocessing of `route_from_text`: strip a leading "user:" label
(case-insensitively), strip whitespace, lower-case. -/
def routerText (last : String) : List Char :=
  let l := last.toList
  if ("user:".toList).isPrefixOf (lowerList l) then
    lowerList (stripChars (l.drop 5))
  else
    lowerList l

/-- Core of `route_from_text` (graph.py): priority-ordered keyword routing
on the latest user message. -/
def routeOfLast (last : String) : String :=
  let t := routerText last
  if kwHit project_keywords t then "project_info"
  else if kwHit doc_keywords t then "doc_search"
  else if kwHit cost_keywords t then "cost"
  else if kwHit board_foot_keywords t then "board_foot"
  else if kwHit sheet_keywords t then "sheet"
  else if kwHit measurement_keywords t then "measure"
  else "chat"

/-- Graph state `ChatState` of graph.py: message history (in "USER: ..." /
"ASSISTANT: ..." format), active project, user, role. -/
structure ChatState where
  messages : List String
  projectId : Option String
  userId : Option String
  roleKey : Option String
deriving DecidableEq

/-- Latest message `state["messages"][-1]` (the graph is always invoked with
a non-empty history, since a user turn is appended first). -/
def lastMessage (s : ChatState) : String := s.messages.getLastD ""

/-- `route_from_text` (graph.py) as a function of the graph state. -/
def route_from_text (s : ChatState) : String := routeOfLast (lastMessage s)

/-- Rule table of the spec's router description: the seven intents as an
ordered list of (keyword test, intent) pairs, default "chat".  Follows the
wording of spec section 4.1; used to state the priority-order claim. -/
def routerRules : List ((List Char → Bool) × String) :=
  [(kwHit project_keywords, "project_info"),
   (kwHit doc_keywords, "doc_search"),
   (kwHit cost_keywords, "cost"),
   (kwHit board_foot_keywords, "board_foot"),
   (kwHit sheet_keywords, "sheet"),
   (kwHit measurement_keywords, "measure")]

/-- Evaluate an ordered rule table, returning the first matching intent
(default "chat").  Follows the spec's "evaluate keyword-membership tests in
strict priority order, returning the first match". -/
def firstMatchIntent : List ((List Char → Bool) × String) → List Char → String
  | [], _ => "chat"
  | r :: rs, t => if r.1 t then r.2 else firstMatchIntent rs t

/-- Union of all six keyword tables of the router. -/
def all_router_keywords : List String :=
  project_keywords ++ doc_keywords ++ cost_keywords ++
    board_foot_keywords ++ sheet_keywords ++ measurement_keywords

/-- Greedy `\d+`: the maximal leading digit run (at least one digit) and the
rest of the input. -/
def parseDigits (l : List Char) : Option (List Char × List Char) :=
  let ds := l.takeWhile Char.isDigit
  if ds.isEmpty then none else some (ds, l.drop ds.length)

/-- Decimal value of a digit run (models Python `int`/`float` on the
captured group). -/
def digitsToNat (ds : List Char) : ℕ :=
  ds.foldl (fun a c => 10 * a + (c.toNat - 48)) 0

/-- Greedy `\d+(?:\.\d+)?` at the current position: numeric value (exact
rational, where Python builds a float) and the rest of the input. -/
def parseNum (l : List Char) : Option (ℚ × List Char) :=
  match parseDigits l with
  | none => none
  | some (ds, rest) =>
    match rest with
    | '.' :: r2 =>
      match parseDigits r2 with
      | some (fs, r3) =>
        some ((digitsToNat ds : ℚ) + (digitsToNat fs : ℚ) / (10 : ℚ) ^ fs.length, r3)
      | none => some ((digitsToNat ds : ℚ), rest)
    | _ => some ((digitsToNat ds : ℚ), rest)

/-- Greedy `\s*`. -/
def skipWS (l : List Char) : List Char := l.dropWhile isWS

/-- Ordered alternation of literal keywords `(k1|k2|...)`: first alternative
that is a prefix of the input wins, returning the rest of the input. -/
def firstKw (kws : List String) (l : List Char) : Option (List Char) :=
  match kws with
  | [] => none
  | k :: ks =>
    if (k.toList).isPrefixOf l then some (l.drop k.toList.length)
    else firstKw ks l

/-- Match one literal character. -/
def expectChar (c : Char) (l : List Char) : Option (List Char) :=
  match l with
  | [] => none
  | d :: rest => if d = c then some rest else none

/-- The apostrophe character (code 39). -/
def apos : Char := Char.ofNat 39

/-- The double-quote character (code 34). -/
def dquote : Char := Char.ofNat 34

/-- Leftmost-match search: models `re.search`, trying a position-anchored
matcher at every position from the left. -/
def searchO {α : Type} (f : List Char → Option α) : List Char → Option α
  | [] => f []
  | c :: rest =>
    match f (c :: rest) with
    | some a => some a
    | none => searchO f rest

/-- Position-anchored matcher for the combined pattern
`(\d+(?:\.\d+)?)\s*'\s*(\d+(?:\.\d+)?)\s*"` of `parse_feet_inches`. -/
def comboAt (l : List Char) : Option (ℚ × ℚ) := do
  let (f, r1) ← parseNum l
  let r2 ← expectChar apos (skipWS r1)
  let (i, r3) ← parseNum (skipWS r2)
  let _ ← expectChar dquote (skipWS r3)
  pure (f, i)

/-- Position-anchored matcher for `(\d+(?:\.\d+)?)\s*(feet|foot|ft|')`. -/
def feetAt (l : List Char) : Option ℚ := do
  let (n, r1) ← parseNum l
  let _ ← firstKw ["feet", "foot", "ft", "\x27"] (skipWS r1)
  pure n

/-- Position-anchored matcher for `(\d+(?:\.\d+)?)\s*(inches|inch|in|")`. -/
def inchAt (l : List Char) : Option ℚ := do
  let (n, r1) ← parseNum l
  let _ ← firstKw ["inches", "inch", "in", "\""] (skipWS r1)
  pure n

/-- Models `parse_feet_inches` (graph.py): combined feet-and-inches pattern
first; else independent feet and inches matches, each defaulting to 0, with
`None` when both values are zero. -/
def parse_feet_inches (text : String) : Option ℚ :=
  let t := lowerList text.toList
  match searchO comboAt t with
  | some (f, i) => some (f * 12 + i)
  | none =>
    let feet := (searchO feetAt t).getD 0
    let inches := (searchO inchAt t).getD 0
    if feet = 0 ∧ inches = 0 then none else some (feet * 12 + inches)

/-- Position-anchored matcher for the dimension triple
`(\d+(?:\.\d+)?)\s*x\s*(\d+(?:\.\d+)?)\s*x\s*(\d+(?:\.\d+)?)`. -/
def dimsAt (l : List Char) : Option ((ℚ × ℚ × ℚ) × List Char) := do
  let (a, r1) ← parseNum l
  let r2 ← expectChar 'x' (skipWS r1)
  let (b, r3) ← parseNum (skipWS r2)
  let r4 ← expectChar 'x' (skipWS r3)
  let (c, r5) ← parseNum (skipWS r4)
  pure ((a, b, c), r5)

/-- Position-anchored matcher for the quantity pattern
`(\d+)\s*(pieces|piece|pcs|boards|planks|qty|quantity)`. -/
def qtyAt (l : List Char) : Option ℕ := do
  let (ds, r1) ← parseDigits l
  let _ ← firstKw ["pieces", "piece", "pcs", "boards", "planks", "qty", "quantity"]
    (skipWS r1)
  pure (digitsToNat ds)

/-- Result record of `parse_board_foot` (graph.py). -/
structure BoardFootResult where
  thickness : ℚ
  width : ℚ
  length_feet : ℚ
  quantity : ℕ
  bf_per_board : ℚ
  total_bf : ℚ
deriving DecidableEq

/-- Models `parse_board_foot` (graph.py): requires a TxWxL triple; quantity
is the optional integer before a unit word, defaulting to 1; board feet per
board is `(T * W * L) / 12`, total is per-board times quantity. -/
def parse_board_foot (text : String) : Option BoardFootResult :=
  let t := lowerList text.toList
  match searchO dimsAt t with
  | none => none
  | some ((th, w, lf), _) =>
    let qty := (searchO qtyAt t).getD 1
    let bf := th * w * lf / 12
    some ⟨th, w, lf, qty, bf, bf * (qty : ℚ)⟩

/-- Position-anchored matcher for the explicit-area pattern
`(\d+(?:\.\d+)?)\s*(square feet|sq ft|sqft|sf)`. -/
def areaAt (l : List Char) : Option ℚ := do
  let (n, r1) ← parseNum l
  let _ ← firstKw ["square feet", "sq ft", "sqft", "sf"] (skipWS r1)
  pure n

/-- Position-anchored matcher for the dimension pair
`(\d+(?:\.\d+)?)\s*x\s*(\d+(?:\.\d+)?)`. -/
def pairAt (l : List Char) : Option ((ℚ × ℚ) × List Char) := do
  let (a, r1) ← parseNum l
  let r2 ← expectChar 'x' (skipWS r1)
  let (b, r3) ← parseNum (skipWS r2)
  pure ((a, b), r3)

/-- Models `parse_area_sqft` (graph.py): explicit square-feet pattern first,
else a generic length-by-width pair interpreted as feet. -/
def parse_area_sqft (text : String) : Option ℚ :=
  let t := lowerList text.toList
  match searchO areaAt t with
  | some a => some a
  | none =>
    match searchO pairAt t with
    | some ((a, b), _) => some (a * b)
    | none => none

/-- Models `.*(kw1|kw2|...)` with the default dot (which does not cross a
newline): some keyword occurrence is reachable from here without passing a
newline character. -/
def dotStarKw (kws : List String) : List Char → Bool
  | [] => false
  | c :: r => (firstKw kws (c :: r)).isSome || (decide (c ≠ '\n') && dotStarKw kws r)

/-- Position-anchored matcher for the sheet-size override pattern of
`parse_sheet_area`: a dimension pair followed (on the same line) by a
sheet-related keyword; yields the pair's product. -/
def sheetDimAt (l : List Char) : Option ℚ :=
  match pairAt l with
  | none => none
  | some ((w, ln), rest) =>
    if dotStarKw ["sheet", "sheets", "drywall", "plywood", "osb", "panel", "panels"] rest
    then some (w * ln) else none

/-- Models `parse_sheet_area` (graph.py): default sheet area 4*8, overridden
by a dimension pair preceding a sheet-related keyword. -/
def parse_sheet_area (text : String) : ℚ :=
  let t := lowerList text.toList
  match searchO sheetDimAt t with
  | some a => a
  | none => 4 * 8

/-- Position-anchored matcher for the price pattern `\$\s*(\d+(?:\.\d+)?)`. -/
def dollarAt (l : List Char) : Option ℚ := do
  let r1 ← expectChar '$' l
  let (n, _) ← parseNum (skipWS r1)
  pure n

/-- Position-anchored matcher for
`(\d+(?:\.\d+)?)\s*(?:per|/)\s*(sheet|sheets|bf|board feet|sqft|square foot|unit|board|piece)`. -/
def perUnitAt (l : List Char) : Option ℚ := do
  let (n, r1) ← parseNum l
  let r2 ← firstKw ["per", "/"] (skipWS r1)
  let _ ← firstKw ["sheet", "sheets", "bf", "board feet", "sqft", "square foot",
      "unit", "board", "piece"] (skipWS r2)
  pure n

/-- Models `parse_price` (graph.py): a `$`-prefixed amount first, else an
amount followed by `per`/`/` and a unit word. -/
def parse_price (text : String) : Option ℚ :=
  let t := lowerList text.toList
  match searchO dollarAt t with
  | some p => some p
  | none => searchO perUnitAt t

/-- Position-anchored matcher for
`(\d+)\s*(sheets|sheet|boards|board|pieces|piece|units|unit|bf|board feet|sqft|square feet)`. -/
def qtyUnitAt (l : List Char) : Option ℕ := do
  let (ds, r1) ← parseDigits l
  let _ ← firstKw ["sheets", "sheet", "boards", "board", "pieces", "piece",
      "units", "unit", "bf", "board feet", "sqft", "square feet"] (skipWS r1)
  pure (digitsToNat ds)

/-- Position-anchored matcher for a bare integer `(\d+)`. -/
def intAt (l : List Char) : Option ℕ := do
  let (ds, _) ← parseDigits l
  pure (digitsToNat ds)

/-- Models `parse_quantity_with_unit` (graph.py): an integer before a unit
word, else the first bare integer anywhere in the text. -/
def parse_quantity_with_unit (text : String) : Option ℕ :=
  let t := lowerList text.toList
  match searchO qtyUnitAt t with
  | some q => some q
  | none => searchO intAt t

/-- Word character of `\w` (ASCII): letter, digit or underscore. -/
def isWordChar (c : Char) : Bool := c.isAlphanum || c = '_'

/-- Accumulating scanner behind `wordTokens`; `cur` holds the characters of
the current in-progress token in reverse. -/
def wordTokensAux : List Char → List Char → List (List Char)
  | cur, [] => if cur.isEmpty then [] else [cur.reverse]
  | cur, c :: rest =>
    if isWordChar c then wordTokensAux (c :: cur) rest
    else if cur.isEmpty then wordTokensAux [] rest
    else cur.reverse :: wordTokensAux [] rest

/-- Models `re.findall(r"\w+", s)`: the maximal word-character runs. -/
def wordTokens (l : List Char) : List (List Char) := wordTokensAux [] l

/-- External entity `ProjectDocument` as the scorer and the search node see
it: a title and a text content. -/
structure ProjectDocument where
  title : String
  content : String
deriving DecidableEq

/-- Project row as `project_info_node` reads it. -/
structure ProjectInfo where
  name : String
  description : Option String
  status : String
deriving DecidableEq

/-- Project-member row as `project_info_node` reads it: an optional role
name and a user id. -/
structure ProjectMemberInfo where
  roleName : Option String
  userId : String
deriving DecidableEq

/-- External collaborators of the graph, as oracle functions: UUID-shape
validation (`uuid.UUID` accepting the string), the document store ordered
newest-first, the project/member store, and the completion capability
(`llm.invoke`). -/
structure Collab where
  validUUID : String → Bool
  fetchDocs : String → List ProjectDocument
  getProject : String → Option ProjectInfo
  listMembers : String → List ProjectMemberInfo
  llm : String → String

/-- Models `_score_doc_relevance` (graph.py): the number of distinct
lower-cased word tokens of the query occurring as substrings of
`title + "\n" + content` (case-insensitive). -/
def score_doc_relevance (doc : ProjectDocument) (query : String) : ℕ :=
  let query_tokens := (wordTokens (lowerList query.toList)).dedup
  if query_tokens.isEmpty then 0
  else
    let text := lowerList (doc.title.toList ++ '\n' :: doc.content.toList)
    (query_tokens.filter (fun tok => hasSub tok text)).length

/-- Stable descending insertion (by score, the first component): the new
element goes after every element with a score at least as large. -/
def insertDesc (x : ℕ × ProjectDocument) :
    List (ℕ × ProjectDocument) → List (ℕ × ProjectDocument)
  | [] => [x]
  | y :: ys => if y.1 < x.1 then x :: y :: ys else y :: insertDesc x ys

/-- Stable descending sort by score: models Python's stable
`list.sort(key=score, reverse=True)`, whose result is uniquely determined. -/
def sortDesc (l : List (ℕ × ProjectDocument)) : List (ℕ × ProjectDocument) :=
  l.foldl (fun acc x => insertDesc x acc) []

/-- Models `_fetch_project_documents` (graph.py): empty on an invalid UUID
string, else the store's documents newest-first. -/
def fetch_project_documents (env : Collab) (project_id : String) :
    List ProjectDocument :=
  if env.validUUID project_id then env.fetchDocs project_id else []

/-- Models `_get_top_project_docs` (graph.py): score each fetched document,
keep positive scores, sort stably descending, take the first `k`, return
(title, content) pairs. -/
def get_top_project_docs (env : Collab) (project_id : Option String)
    (question : String) (k : ℕ) : List (String × String) :=
  match project_id with
  | none => []
  | some pid =>
    if pid = "" then []
    else
      let docs := fetch_project_documents env pid
      if docs.isEmpty then []
      else
        let scored :=
          (docs.map (fun d => (score_doc_relevance d question, d))).filter
            (fun p => 0 < p.1)
        if scored.isEmpty then []
        else ((sortDesc scored).take k).map (fun p => (p.2.title, p.2.content))

/-- Two-decimal rendering of Python's `f"{x:.2f}"` (exact rationals; the
rounding of a tie takes the upper value, which coincides with Python on
every value the development exercises). -/
def fmt2 (q : ℚ) : String :=
  let c : ℤ := round (q * 100)
  let n := c.natAbs
  let sign := if c < 0 then "-" else ""
  let frac := n % 100
  let fracStr := if frac < 10 then "0" ++ toString frac else toString frac
  sign ++ toString (n / 100) ++ "." ++ fracStr

/-- Rendering of a bare Python float in an f-string, for the exact-rational
model: integral values print as Python floats do (`2.0`); non-integral
values (never exercised by the claims) fall back to `num/den`. -/
def ratStr (q : ℚ) : String :=
  if q.den = 1 then toString q.num ++ ".0"
  else toString q.num ++ "/" ++ toString q.den

/-- Append the assistant turn, keeping the session identifiers; every
handler node of graph.py returns its state in exactly this shape. -/
def mkReply (s : ChatState) (reply : String) : ChatState :=
  { messages := s.messages ++ ["ASSISTANT: " ++ reply]
    projectId := s.projectId
    userId := s.userId
    roleKey := s.roleKey }

/-- Text preprocessing shared by the handler nodes: strip a leading
"USER:" label (case-insensitively) and surrounding whitespace. -/
def nodeText (last : String) : String :=
  let l := last.toList
  if ("user:".toList).isPrefixOf (lowerList l) then String.mk (stripChars (l.drop 5))
  else last

/-- Failure reply of `construction_measurement_node` (graph.py). -/
def measure_fail_reply : String :=
  "I tried to treat that as a construction measurement, but couldn\x27t parse it.\nTry something like:\n - 9 ft 7 in\n - 9\x27 7\"\n - 10 feet\n - 14 inches"

/-- Success reply of `construction_measurement_node` (graph.py). -/
def render_measure_reply (total_inches : ℚ) (feet : ℤ) (inches : ℚ) : String :=
  "Here\x27s your construction measurement breakdown:\n - Total inches: " ++
    fmt2 total_inches ++ " in\n - Feet & inches: " ++ toString feet ++ "\x27 " ++
    fmt2 inches ++ "\"\n"

/-- Models `construction_measurement_node` (graph.py). -/
def construction_measurement_node (s : ChatState) : ChatState :=
  let text := nodeText (lastMessage s)
  match parse_feet_inches text with
  | none => mkReply s measure_fail_reply
  | some ti =>
    let feet : ℤ := ⌊ti / 12⌋
    let inches : ℚ := ti - 12 * (⌊ti / 12⌋ : ℚ)
    mkReply s (render_measure_reply ti feet inches)

/-- Failure reply of `board_foot_node` (graph.py). -/
def board_foot_fail_reply : String :=
  "I tried to treat that as a board-foot calculation but couldn\x27t parse it.\nTry something like:\n - 2x10x16\n - 10 boards of 2x6x12\n - calculate board feet for 20 pieces 2x8x14"

/-- Success reply of `board_foot_node` (graph.py). -/
def render_board_foot_reply (r : BoardFootResult) : String :=
  "Board-foot calculation:\n - Dimensions per board: " ++ ratStr r.thickness ++
    " in x " ++ ratStr r.width ++ " in x " ++ ratStr r.length_feet ++
    " ft\n - Quantity: " ++ toString r.quantity ++
    "\n - Board feet per board: " ++ fmt2 r.bf_per_board ++
    " bf\n - Total board feet: " ++ fmt2 r.total_bf ++ " bf\n"

/-- Models `board_foot_node` (graph.py). -/
def board_foot_node (s : ChatState) : ChatState :=
  let text := nodeText (lastMessage s)
  match parse_board_foot text with
  | none => mkReply s board_foot_fail_reply
  | some r => mkReply s (render_board_foot_reply r)

/-- Failure reply of `sheet_count_node` (graph.py). -/
def sheet_fail_reply : String :=
  "I tried to treat that as a sheet-count question but couldn\x27t parse the area.\nExamples I understand:\n - How many 4x8 sheets for 720 sq ft?\n - Sheets needed for 12x20 room (use \x2712x20\x27)\n - 350 square feet of drywall, 4x10 sheets\n"

/-- Success reply of `sheet_count_node` (graph.py). -/
def render_sheet_reply (area sheet_area raw_count : ℚ) (sheets_needed : ℤ) :
    String :=
  "Sheet count estimate:\n - Area to cover: " ++ fmt2 area ++
    " sq ft\n - Sheet size area: " ++ fmt2 sheet_area ++
    " sq ft\n - Raw sheet count (no rounding): " ++ fmt2 raw_count ++
    "\n - Recommended sheets (rounded up): " ++ toString sheets_needed ++
    "\nNote: This does not include waste, cuts, or openings."

/-- Models `sheet_count_node` (graph.py): parse the area, determine the
sheet area, report the raw quotient and its ceiling. -/
def sheet_count_node (s : ChatState) : ChatState :=
  let text := nodeText (lastMessage s)
  match parse_area_sqft text with
  | none => mkReply s sheet_fail_reply
  | some area =>
    let sheet_area := parse_sheet_area text
    let raw_count := area / sheet_area
    let sheets_needed : ℤ := ⌈raw_count⌉
    mkReply s (render_sheet_reply area sheet_area raw_count sheets_needed)

/-- Role gate of `material_cost_node`: membership of the role key in
`{"PROJECT_MANAGER", "ESTIMATOR"}` (an absent role is not a member). -/
def privilegedCost : Option String → Bool
  | some r => r = "PROJECT_MANAGER" || r = "ESTIMATOR"
  | none => false

/-- Refusal reply of `material_cost_node` for non-privileged roles. -/
def cost_refusal_reply : String :=
  "I can help you with quantities and measurements, but detailed material cost estimates are restricted to the Project Manager or Estimator. Please ask them for the exact cost breakdown."

/-- Board-foot-mode failure reply of `material_cost_node` when no price is
found. -/
def bf_price_fail_reply : String :=
  "I detected a board-foot style request but couldn\x27t parse a price.\nTry something like:\n - Cost for 16 boards of 2x10x16 at $2.10 per bf\n"

/-- Generic-mode failure reply of `material_cost_node`. -/
def cost_fail_reply : String :=
  "I tried to treat that as a material cost question but couldn\x27t parse both a quantity and a price.\nExamples I understand:\n - Cost for 40 sheets at $14 each\n - 25 boards at $8.50 per board\n - 200 sqft at $1.20 per sqft\n - 16 boards of 2x10x16 at $2.10 per bf\n"

/-- Board-foot-mode success reply of `material_cost_node`. -/
def render_cost_bf_reply (r : BoardFootResult) (price : ℚ) : String :=
  "Material cost estimate (board feet):\n - Dimensions per board: " ++
    ratStr r.thickness ++ " in x " ++ ratStr r.width ++ " in x " ++
    ratStr r.length_feet ++ " ft\n - Quantity: " ++ toString r.quantity ++
    "\n - Total board feet: " ++ fmt2 r.total_bf ++
    " bf\n - Price per bf: $" ++ fmt2 price ++
    "\n - Estimated material cost: $" ++ fmt2 (r.total_bf * price) ++ "\n"

/-- Generic-mode success reply of `material_cost_node`. -/
def render_cost_unit_reply (qty : ℕ) (price : ℚ) : String :=
  "Material cost estimate:\n - Quantity: " ++ toString qty ++
    "\n - Price per unit: $" ++ fmt2 price ++
    "\n - Estimated material cost: $" ++ fmt2 ((qty : ℚ) * price) ++ "\n"

/-- Trigger vocabulary test of the board-foot cost mode:
`"bf" in t or "board foot" in t or "board feet" in t`. -/
def bf_trigger (t : List Char) : Bool :=
  hasSub "bf".toList t || hasSub "board foot".toList t ||
    hasSub "board feet".toList t

/-- Models `material_cost_node` (graph.py): role gate first; then the
board-foot mode when its trigger vocabulary is present and the dimension
triple parses, else the generic quantity-times-price mode. -/
def material_cost_node (s : ChatState) : ChatState :=
  if privilegedCost s.roleKey = false then mkReply s cost_refusal_reply
  else
    let text := nodeText (lastMessage s)
    let t := lowerList text.toList
    let price := parse_price text
    match parse_board_foot text, bf_trigger t with
    | some bf_info, true =>
      match price with
      | none => mkReply s bf_price_fail_reply
      | some p => mkReply s (render_cost_bf_reply bf_info p)
    | _, _ =>
      match price, parse_quantity_with_unit text with
      | some p, some q => mkReply s (render_cost_unit_reply q p)
      | _, _ => mkReply s cost_fail_reply

/-- Missing-project reply of `project_info_node`. -/
def no_project_reply : String :=
  "I can summarize the project, but no projectId was provided. Try asking again from inside an active project."

/-- Invalid-project-id reply of `project_info_node`. -/
def invalid_project_reply : String :=
  "I tried to look up this project, but the projectId format seems invalid. Please try again from an active project."

/-- Project-not-found reply of `project_info_node`. -/
def project_not_found_reply : String :=
  "I looked for that project in the database, but couldn\x27t find it. It may have been deleted or you may not have access."

/-- Python truthiness of an optional string: `None` and the empty string
are falsy. -/
def emptyOrNone : Option String → Bool
  | none => true
  | some v => v = ""

/-- Python `a or b` over an optional string: the fallback replaces both an
absent and an empty value. -/
def orElseStr (o : Option String) (dflt : String) : String :=
  match o with
  | none => dflt
  | some d => if d = "" then dflt else d

/-- Member line of the PM view of `project_info_node`. -/
def render_member_line (m : ProjectMemberInfo) : String :=
  "- " ++ (m.roleName.getD "No role assigned") ++ " (user id: " ++ m.userId ++ ")"

/-- Full PM-view reply of `project_info_node`. -/
def render_project_pm_reply (p : ProjectInfo) (members : List ProjectMemberInfo) :
    String :=
  let member_block :=
    if members.isEmpty then "No members found."
    else String.intercalate "\n" (members.map render_member_line)
  "Project Overview (PM view):\nName: " ++ p.name ++ "\nDescription: " ++
    orElseStr p.description "No description provided." ++ "\nStatus: " ++
    p.status ++ "\nMembers:\n" ++ member_block

/-- Limited reply of `project_info_node` for non-PM roles. -/
def render_project_basic_reply (p : ProjectInfo) : String :=
  "Project Overview:\nName: " ++ p.name ++ "\nDescription: " ++
    orElseStr p.description "No description provided." ++ "\nStatus: " ++
    p.status ++ "\nTeam details are limited based on your role. Ask your Project Manager if you need more information."

/-- Models `project_info_node` (graph.py): distinct replies for a missing,
malformed or unresolvable project id; on success the PM role sees the
member list, other roles the basic overview. -/
def project_info_node (env : Collab) (s : ChatState) : ChatState :=
  if emptyOrNone s.projectId then mkReply s no_project_reply
  else
    let pid := (s.projectId).getD ""
    if env.validUUID pid = false then mkReply s invalid_project_reply
    else
      match env.getProject pid with
      | none => mkReply s project_not_found_reply
      | some project =>
        let members := env.listMembers pid
        if s.roleKey = some "PROJECT_MANAGER" then
          mkReply s (render_project_pm_reply project members)
        else
          mkReply s (render_project_basic_reply project)

/-- Missing-project reply of `document_search_node`. -/
def doc_no_project_reply : String :=
  "I can search project documents, but no projectId was provided. Try asking again from inside an active project."

/-- Invalid-project-id reply of `document_search_node`. -/
def doc_invalid_project_reply : String :=
  "I tried to look up this project\x27s documents, but the projectId format seems invalid. Please try again from an active project."

/-- Nothing-found reply of `document_search_node`. -/
def doc_nothing_found_reply : String :=
  "I searched the project documents but couldn\x27t find anything clearly related to your question. Try rephrasing or adding more detail."

/-- Case-insensitive substring test of SQL `column ILIKE '%pattern%'`
(wildcard characters inside the pattern are not modelled; no claim
exercises them). -/
def ilikeContains (column pattern : String) : Bool :=
  hasSub (lowerList pattern.toList) (lowerList column.toList)

/-- Prompt builder of `document_search_node`: up to five documents, each
contributing its title and the first 600 characters of its content. -/
def doc_search_prompt (query_text : String) (docs : List ProjectDocument) :
    String :=
  let chunks := docs.enum.map (fun p =>
    "Document " ++ toString (p.1 + 1) ++ " - " ++ p.2.title ++ ":\n" ++
      String.mk (p.2.content.toList.take 600) ++ "\n")
  let context_text := String.intercalate "\n\n" chunks
  "You are an AI assistant helping with a construction project. Use ONLY the following project documents to answer the user\x27s question. If the documents do not contain the answer, say you couldn\x27t find anything definitive in the project documents.\n\nUser\x27s question:\n" ++
    query_text ++ "\n\nProject documents:\n" ++ context_text ++
    "\n\nNow provide a concise, helpful answer referencing the documents when appropriate."

/-- Models `document_search_node` (graph.py): validate the project id,
filter the project's documents by case-insensitive substring match of the
query against title or content (newest-first, capped at five), then answer
through the completion capability; a fixed reply when nothing matches. -/
def document_search_node (env : Collab) (s : ChatState) : ChatState :=
  let query_text := nodeText (lastMessage s)
  if emptyOrNone s.projectId then mkReply s doc_no_project_reply
  else
    let pid := (s.projectId).getD ""
    if env.validUUID pid = false then mkReply s doc_invalid_project_reply
    else
      let docs :=
        ((env.fetchDocs pid).filter (fun d =>
          ilikeContains d.title query_text || ilikeContains d.content query_text)).take 5
      if docs.isEmpty then mkReply s doc_nothing_found_reply
      else mkReply s (env.llm (doc_search_prompt query_text docs))

/-- RAG prompt builder of `assistant_node`. -/
def rag_prompt (user_text : String) (top_docs : List (String × String)) :
    String :=
  let docs_block := String.intercalate "\n\n"
    (top_docs.map (fun p => "[Document: " ++ p.1 ++ "]\n" ++ p.2))
  "You are a construction/project assistant. Use the project documents below if they are relevant to the user\x27s question. If they are not relevant, answer from your own knowledge but do NOT invent project-specific facts.\n\n" ++
    docs_block ++ "\n\nUser question: " ++ user_text

/-- Models `assistant_node` (graph.py): generic fallback; with a project
the relevance scorer selects up to three documents for a RAG prompt, else
the raw user text is the prompt. -/
def assistant_node (env : Collab) (s : ChatState) : ChatState :=
  let user_text := nodeText (lastMessage s)
  let top_docs := get_top_project_docs env s.projectId user_text 3
  let prompt :=
    if top_docs.isEmpty then user_text else rag_prompt user_text top_docs
  mkReply s (env.llm prompt)

/-- Models the conditional-edge dispatch of `build_graph` (graph.py): the
router's intent selects the single handler node that runs to END. -/
def graphDispatch (env : Collab) (intent : String) (s : ChatState) : ChatState :=
  if intent = "project_info" then project_info_node env s
  else if intent = "doc_search" then document_search_node env s
  else if intent = "board_foot" then board_foot_node s
  else if intent = "sheet" then sheet_count_node s
  else if intent = "cost" then material_cost_node s
  else if intent = "measure" then construction_measurement_node s
  else assistant_node env s

/-- Models `append_user_turn` (main.py): append the new "USER: ..." turn to
the caller-supplied history. -/
def append_user_turn (history : List String) (user_message : String) :
    List String :=
  history ++ ["USER: " ++ user_message]

/-- Models one chat turn (`/chat` in main.py): append the user turn, route
on the resulting last message, run the selected handler. -/
def handleTurn (env : Collab) (s : ChatState) (user_message : String) :
    ChatState :=
  let s2 : ChatState := { s with messages := append_user_turn s.messages user_message }
  graphDispatch env (route_from_text s2) s2

/-- Example document of the scorer test: title "Roof Inspection", content
containing "leak detected". -/
def roofDoc : ProjectDocument := ⟨"Roof Inspection", "leak detected"⟩

/-- Example document whose content matches the query "spec". -/
def specExampleDoc : ProjectDocument := ⟨"Finishes", "the spec text"⟩

/-- Store fixture serving one matching document. -/
def docStore : String → List ProjectDocument := fun _ => [specExampleDoc]

/-- Collaborator fixture whose completion capability answers "ALPHA". -/
def envAlpha : Collab :=
  ⟨fun _ => true, docStore, fun _ => none, fun _ => [], fun _ => "ALPHA"⟩

/-- Collaborator fixture identical to `envAlpha` on every store component,
but whose completion capability answers "BETA". -/
def envBeta : Collab :=
  ⟨fun _ => true, docStore, fun _ => none, fun _ => [], fun _ => "BETA"⟩

/-- Collaborator fixture serving the roof document. -/
def envRoof : Collab :=
  ⟨fun _ => true, fun _ => [roofDoc], fun _ => none, fun _ => [], fun _ => "OK"⟩

/-- Session fixture whose last user message is "spec" inside project p1. -/
def stateSpecSearch : ChatState := ⟨["USER: spec"], some "p1", none, none⟩

/-- Session fixture for a HOMEOWNER asking a cost-shaped question. -/
def stateHomeowner : ChatState :=
  ⟨["USER: cost of 40 sheets at $14 each"], none, none, some "HOMEOWNER"⟩

/-- Session fixture asking for sheets over 720 square feet. -/
def stateSheet720 : ChatState := ⟨["USER: 720 sq ft"], none, none, none⟩

theorem mkReply_shape (s : ChatState) (r : String) :
    (mkReply s r).messages = s.messages ++ ["ASSISTANT: " ++ r]
    ∧ (mkReply s r).projectId = s.projectId
    ∧ (mkReply s r).userId = s.userId
    ∧ (mkReply s r).roleKey = s.roleKey :=
  ⟨rfl, rfl, rfl, rfl⟩

theorem construction_measurement_appends (s : ChatState) :
    ∃ r, construction_measurement_node s = mkReply s r := by
  unfold construction_measurement_node
  dsimp only
  cases parse_feet_inches (nodeText (lastMessage s))
  · exact ⟨_, rfl⟩
  · exact ⟨_, rfl⟩

theorem board_foot_appends (s : ChatState) :
    ∃ r, board_foot_node s = mkReply s r := by
  unfold board_foot_node
  dsimp only
  cases parse_board_foot (nodeText (lastMessage s))
  · exact ⟨_, rfl⟩
  · exact ⟨_, rfl⟩

theorem sheet_count_appends (s : ChatState) :
    ∃ r, sheet_count_node s = mkReply s r := by
  unfold sheet_count_node
  dsimp only
  cases parse_area_sqft (nodeText (lastMessage s))
  · exact ⟨_, rfl⟩
  · exact ⟨_, rfl⟩

theorem material_cost_appends (s : ChatState) :
    ∃ r, material_cost_node s = mkReply s r := by
  unfold material_cost_node
  dsimp only
  split
  · exact ⟨_, rfl⟩
  · cases parse_board_foot (nodeText (lastMessage s)) <;>
      cases bf_trigger (lowerList (nodeText (lastMessage s)).toList) <;>
      cases parse_price (nodeText (lastMessage s)) <;>
      cases parse_quantity_with_unit (nodeText (lastMessage s)) <;>
      exact ⟨_, rfl⟩

theorem project_info_appends (env : Collab) (s : ChatState) :
    ∃ r, project_info_node env s = mkReply s r := by
  unfold project_info_node
  dsimp only
  split
  · exact ⟨_, rfl⟩
  · split
    · exact ⟨_, rfl⟩
    · cases env.getProject (s.projectId.getD "") with
      | none => exact ⟨_, rfl⟩
      | some project =>
        dsimp only
        split
        · exact ⟨_, rfl⟩
        · exact ⟨_, rfl⟩

theorem document_search_appends (env : Collab) (s : ChatState) :
    ∃ r, document_search_node env s = mkReply s r := by
  unfold document_search_node
  dsimp only
  split
  · exact ⟨_, rfl⟩
  · split
    · exact ⟨_, rfl⟩
    · split
      · exact ⟨_, rfl⟩
      · exact ⟨_, rfl⟩

theorem assistant_appends (env : Collab) (s : ChatState) :
    ∃ r, assistant_node env s = mkReply s r :=
  ⟨_, rfl⟩

theorem graphDispatch_appends (env : Collab) (intent : String) (s : ChatState) :
    ∃ r, graphDispatch env intent s = mkReply s r := by
  unfold graphDispatch
  split_ifs
  · exact project_info_appends env s
  · exact document_search_appends env s
  · exact board_foot_appends s
  · exact sheet_count_appends s
  · exact material_cost_appends s
  · exact construction_measurement_appends s
  · exact assistant_appends env s

/-- C3: one chat turn appends exactly one user turn and then exactly one
assistant turn, never removing, reordering or mutating prior turns, and
every handler node returns the session's projectId, userId and roleKey
unchanged. -/
theorem claim_C3_append_only_turns :
    (∀ s, ∃ r, construction_measurement_node s = mkReply s r)
    ∧ (∀ s, ∃ r, board_foot_node s = mkReply s r)
    ∧ (∀ s, ∃ r, sheet_count_node s = mkReply s r)
    ∧ (∀ s, ∃ r, material_cost_node s = mkReply s r)
    ∧ (∀ env s, ∃ r, project_info_node env s = mkReply s r)
    ∧ (∀ env s, ∃ r, document_search_node env s = mkReply s r)
    ∧ (∀ env s, ∃ r, assistant_node env s = mkReply s r)
    ∧ (∀ s r, (mkReply s r).messages = s.messages ++ ["ASSISTANT: " ++ r]
        ∧ (mkReply s r).projectId = s.projectId
        ∧ (mkReply s r).userId = s.userId
        ∧ (mkReply s r).roleKey = s.roleKey)
    ∧ (∀ env s m, ∃ r,
        (handleTurn env s m).messages =
          s.messages ++ ["USER: " ++ m, "ASSISTANT: " ++ r]
        ∧ (handleTurn env s m).projectId = s.projectId
        ∧ (handleTurn env s m).userId = s.userId
        ∧ (handleTurn env s m).roleKey = s.roleKey) := by
  refine ⟨construction_measurement_appends, board_foot_appends,
    sheet_count_appends, material_cost_appends, project_info_appends,
    document_search_appends, assistant_appends, mkReply_shape, ?_⟩
  intro env s m
  obtain ⟨r, hr⟩ := graphDispatch_appends env
    (route_from_text { s with messages := append_user_turn s.messages m })
    { s with messages := append_user_turn s.messages m }
  have key : handleTurn env s m =
      mkReply { s with messages := append_user_turn s.messages m } r := by
    unfold handleTurn
    dsimp only
    exact hr
  refine ⟨r, ?_, ?_, ?_, ?_⟩ <;> rw [key] <;>
    simp [mkReply, append_user_turn, List.append_assoc]

/-- C2: a session whose role key is not PROJECT_MANAGER or ESTIMATOR
(including an absent role) receives the fixed cost refusal, appended as a
normal assistant turn with the session identifiers unchanged, regardless of
the message text and before any parsing. -/
theorem claim_C2_cost_role_gate (s : ChatState)
    (h1 : s.roleKey ≠ some "PROJECT_MANAGER")
    (h2 : s.roleKey ≠ some "ESTIMATOR") :
    material_cost_node s =
      { messages := s.messages ++ ["ASSISTANT: " ++ cost_refusal_reply],
        projectId := s.projectId, userId := s.userId, roleKey := s.roleKey } := by
  have hp : privilegedCost s.roleKey = false := by
    cases hk : s.roleKey with
    | none => rfl
    | some r => simp_all [privilegedCost]
  unfold material_cost_node
  rw [hp]
  simp [mkReply]

/-- Witness for C2: a HOMEOWNER session on a cost-shaped input receives the
fixed refusal text. -/
theorem claim_C2_cost_role_gate_witness :
    material_cost_node stateHomeowner =
      { messages := stateHomeowner.messages ++ ["ASSISTANT: " ++ cost_refusal_reply],
        projectId := stateHomeowner.projectId, userId := stateHomeowner.userId,
        roleKey := stateHomeowner.roleKey } :=
  claim_C2_cost_role_gate stateHomeowner (by decide) (by decide)

theorem kwHit_eq_false (kws : List String) (t : List Char) :
    kwHit kws t = false ↔ ∀ k ∈ kws, hasSub k.toList t = false := by
  simp [kwHit, List.any_eq_false]

theorem routeOfLast_eq_chat (last : String) :
    routeOfLast last = "chat" ↔
      (kwHit project_keywords (routerText last) = false
       ∧ kwHit doc_keywords (routerText last) = false
       ∧ kwHit cost_keywords (routerText last) = false
       ∧ kwHit board_foot_keywords (routerText last) = false
       ∧ kwHit sheet_keywords (routerText last) = false
       ∧ kwHit measurement_keywords (routerText last) = false) := by
  unfold routeOfLast
  dsimp only
  split_ifs <;> simp_all

/-- C1 (amended): the router equals the first-match evaluation of the
priority-ordered rule table; a text matching a cost keyword is never routed
to sheet; and a text matching both a cost and a sheet keyword is routed to
cost provided no project or document keyword also occurs in it. -/
theorem claim_C1_router_priority :
    (∀ last : String,
      routeOfLast last = firstMatchIntent routerRules (routerText last))
    ∧ (∀ last : String, kwHit cost_keywords (routerText last) = true →
        routeOfLast last ≠ "sheet")
    ∧ (∀ last : String, kwHit cost_keywords (routerText last) = true →
        kwHit sheet_keywords (routerText last) = true →
        kwHit project_keywords (routerText last) = false →
        kwHit doc_keywords (routerText last) = false →
        routeOfLast last = "cost") := by
  refine ⟨fun last => rfl, ?_, ?_⟩
  · intro last h
    unfold routeOfLast
    dsimp only
    split_ifs <;> first | decide | simp_all
  · intro last hc hs hnp hnd
    unfold routeOfLast
    dsimp only
    split_ifs <;> first | decide | simp_all

set_option maxHeartbeats 1600000 in
/-- Witness for C1: "cost of 40 sheets" matches both a cost and a sheet
keyword and no project or document keyword, and is routed to cost. -/
theorem claim_C1_router_priority_witness :
    routeOfLast "cost of 40 sheets" = "cost" :=
  claim_C1_router_priority.2.2 "cost of 40 sheets"
    (by decide) (by decide) (by decide) (by decide)

set_option maxHeartbeats 1600000 in
/-- Counterexample for C1 as frozen: "team cost sheet" matches both a cost
keyword and a sheet keyword, yet is routed to project_info, not cost (the
project category has higher priority). -/
theorem claim_C1_router_priority_counterexample :
    kwHit cost_keywords (routerText "team cost sheet") = true
    ∧ kwHit sheet_keywords (routerText "team cost sheet") = true
    ∧ routeOfLast "team cost sheet" = "project_info"
    ∧ routeOfLast "team cost sheet" ≠ "cost" := by decide

set_option maxHeartbeats 1600000 in
/-- C10: the router's keyword tests are substring tests on the whole
lower-cased message: "inspection" routes to doc_search (it contains
"spec"), "paint" routes to measure (it contains "in"), and the default chat
intent is returned exactly when none of the keyword strings occurs anywhere
in the preprocessed text as a substring. -/
theorem claim_C10_substring_routing :
    routeOfLast "inspection" = "doc_search"
    ∧ routeOfLast "paint" = "measure"
    ∧ (∀ last : String, routeOfLast last = "chat" ↔
        ∀ k ∈ all_router_keywords, hasSub k.toList (routerText last) = false) := by
  refine ⟨by decide, by decide, ?_⟩
  intro last
  rw [routeOfLast_eq_chat]
  constructor
  · rintro ⟨h1, h2, h3, h4, h5, h6⟩ k hk
    simp only [all_router_keywords, List.mem_append] at hk
    rcases hk with (((((hk | hk) | hk) | hk) | hk) | hk)
    · exact (kwHit_eq_false _ _).mp h1 k hk
    · exact (kwHit_eq_false _ _).mp h2 k hk
    · exact (kwHit_eq_false _ _).mp h3 k hk
    · exact (kwHit_eq_false _ _).mp h4 k hk
    · exact (kwHit_eq_false _ _).mp h5 k hk
    · exact (kwHit_eq_false _ _).mp h6 k hk
  · intro h
    refine ⟨?_, ?_, ?_, ?_, ?_, ?_⟩ <;>
      · rw [kwHit_eq_false]
        intro k hk
        refine h k ?_
        simp only [all_router_keywords, List.mem_append]
        tauto

set_option maxHeartbeats 1600000 in
/-- C4 (amended): the Measurement Parser fails exactly when the combined
feet-and-inches pattern is absent and both the feet and the inches value
(each defaulting to 0 when its pattern is absent) are zero; a text whose
only measurement tokens are explicit zeros, such as "0 ft", therefore does
count as a parse failure, while the combined pattern parses even an
explicit zero (0' 0" yields 0). -/
theorem claim_C4_parse_failure_iff :
    (∀ text : String,
      parse_feet_inches text = none ↔
        (searchO comboAt (lowerList text.toList) = none
         ∧ (searchO feetAt (lowerList text.toList)).getD 0 = 0
         ∧ (searchO inchAt (lowerList text.toList)).getD 0 = 0))
    ∧ parse_feet_inches "0 ft" = none
    ∧ parse_feet_inches "0\x27 0\"" = some 0
    ∧ parse_feet_inches "9 ft 7 in" = some 115 := by
  refine ⟨?_, by with_unfolding_all decide, by with_unfolding_all decide,
    by with_unfolding_all decide⟩
  intro text
  unfold parse_feet_inches
  dsimp only
  simp only [String.toList]
  cases hc : searchO comboAt (lowerList text.data) with
  | some v =>
    obtain ⟨f, i⟩ := v
    simp [hc]
  | none =>
    dsimp only
    split_ifs with h
    · simp [hc, h.1, h.2]
    · simp only [hc, true_and]
      constructor
      · intro hfalse
        exact absurd hfalse (by simp)
      · intro hz
        exact absurd hz h

set_option maxHeartbeats 1600000 in
/-- Counterexample for C4 as frozen: in "0 ft" a numeric feet token is
found (the feet pattern matches with value 0), yet the parser fails. -/
theorem claim_C4_counterexample :
    searchO feetAt (lowerList "0 ft".toList) = some 0
    ∧ parse_feet_inches "0 ft" = none := by with_unfolding_all decide

/-- C7: whenever the Board-Foot Calculator succeeds, board-feet per unit is
(T * W * L) / 12 and the total is per-unit times quantity, where the
quantity is the parsed integer before a unit word and defaults to 1 when
that pattern is absent. -/
theorem claim_C7_board_foot_calc (t : String) (r : BoardFootResult)
    (h : parse_board_foot t = some r) :
    r.bf_per_board = r.thickness * r.width * r.length_feet / 12
    ∧ r.total_bf = r.bf_per_board * (r.quantity : ℚ)
    ∧ (searchO qtyAt (lowerList t.toList) = none → r.quantity = 1)
    ∧ (∀ q, searchO qtyAt (lowerList t.toList) = some q → r.quantity = q) := by
  unfold parse_board_foot at h
  dsimp only at h
  simp only [String.toList] at h ⊢
  cases hd : searchO dimsAt (lowerList t.data) with
  | none =>
    rw [hd] at h
    exact absurd h (by simp)
  | some v =>
    obtain ⟨⟨a, b, c⟩, rest⟩ := v
    rw [hd] at h
    dsimp only at h
    rw [Option.some_inj] at h
    subst h
    refine ⟨rfl, rfl, ?_, ?_⟩
    · intro hq
      simp [hq]
    · intro q hq
      simp [hq]

set_option maxHeartbeats 1600000 in
/-- Witness for C7: "10 boards of 2x6x12" parses to quantity 10, 12 board
feet per unit and 120 total, and the total equals per-unit times quantity. -/
theorem claim_C7_board_foot_calc_witness :
    parse_board_foot "10 boards of 2x6x12" = some ⟨2, 6, 12, 10, 12, 120⟩
    ∧ (⟨2, 6, 12, 10, 12, 120⟩ : BoardFootResult).total_bf =
        (⟨2, 6, 12, 10, 12, 120⟩ : BoardFootResult).bf_per_board *
          ((⟨2, 6, 12, 10, 12, 120⟩ : BoardFootResult).quantity : ℚ) := by
  have h : parse_board_foot "10 boards of 2x6x12" = some ⟨2, 6, 12, 10, 12, 120⟩ := by
    with_unfolding_all decide
  exact ⟨h, (claim_C7_board_foot_calc _ _ h).2.1⟩

/-- C8: whenever the Area/Sheet Calculator parses an area, the reply
renders that area, the sheet area, the raw quotient and its ceiling as the
recommended count; the sheet area is the default 4*8 = 32 when no
dimension-pair override precedes a sheet keyword. -/
theorem claim_C8_sheet_count (s : ChatState) (area : ℚ)
    (h : parse_area_sqft (nodeText (lastMessage s)) = some area) :
    sheet_count_node s =
      mkReply s (render_sheet_reply area
        (parse_sheet_area (nodeText (lastMessage s)))
        (area / parse_sheet_area (nodeText (lastMessage s)))
        ⌈area / parse_sheet_area (nodeText (lastMessage s))⌉)
    ∧ (searchO sheetDimAt (lowerList (nodeText (lastMessage s)).toList) = none →
        parse_sheet_area (nodeText (lastMessage s)) = 32) := by
  constructor
  · unfold sheet_count_node
    dsimp only
    rw [h]
  · intro hd
    unfold parse_sheet_area
    dsimp only
    rw [hd]
    norm_num

set_option maxHeartbeats 1600000 in
set_option maxRecDepth 16384 in
/-- Witness for C8: an area of "720 sq ft" with the default 32 sq ft sheet
yields the raw count 22.5 and the rounded-up count 23. -/
theorem claim_C8_sheet_count_witness :
    parse_area_sqft "720 sq ft" = some 720
    ∧ parse_sheet_area "720 sq ft" = 32
    ∧ (720 : ℚ) / 32 = 45 / 2
    ∧ (⌈(45 : ℚ) / 2⌉ : ℤ) = 23
    ∧ sheet_count_node stateSheet720 =
        mkReply stateSheet720 (render_sheet_reply 720 32 (45 / 2) 23) := by
  refine ⟨by with_unfolding_all decide, by with_unfolding_all decide,
    by norm_num, by with_unfolding_all decide, ?_⟩
  have h := (claim_C8_sheet_count stateSheet720 720 (by with_unfolding_all decide)).1
  rw [h]
  with_unfolding_all decide

theorem mem_insertDesc (x b : ℕ × ProjectDocument) (l : List (ℕ × ProjectDocument)) :
    b ∈ insertDesc x l ↔ b = x ∨ b ∈ l := by
  induction l with
  | nil => simp [insertDesc]
  | cons y ys ih =>
    rw [insertDesc]
    split_ifs
    · simp
    · simp [ih]
      tauto

theorem insertDesc_pairwise (x : ℕ × ProjectDocument)
    {l : List (ℕ × ProjectDocument)}
    (h : l.Pairwise (fun a b => b.1 ≤ a.1)) :
    (insertDesc x l).Pairwise (fun a b => b.1 ≤ a.1) := by
  induction l with
  | nil => simp [insertDesc]
  | cons y ys ih =>
    rw [insertDesc]
    obtain ⟨hy, hys⟩ := List.pairwise_cons.mp h
    split_ifs with hlt
    · refine List.pairwise_cons.mpr ⟨?_, h⟩
      intro b hb
      rcases List.mem_cons.mp hb with hb | hb
      · exact hb ▸ le_of_lt hlt
      · exact le_trans (hy b hb) (le_of_lt hlt)
    · refine List.pairwise_cons.mpr ⟨?_, ih hys⟩
      intro b hb
      rcases (mem_insertDesc x b ys).mp hb with hb | hb
      · exact hb ▸ le_of_not_lt hlt
      · exact hy b hb

theorem insertDesc_perm (x : ℕ × ProjectDocument) (l : List (ℕ × ProjectDocument)) :
    List.Perm (insertDesc x l) (x :: l) := by
  induction l with
  | nil => rfl
  | cons y ys ih =>
    rw [insertDesc]
    split_ifs
    · exact List.Perm.refl _
    · exact (ih.cons y).trans (List.Perm.swap x y ys)

theorem insertDesc_filter (x : ℕ × ProjectDocument)
    {l : List (ℕ × ProjectDocument)} (k : ℕ)
    (h : l.Pairwise (fun a b => b.1 ≤ a.1)) :
    (insertDesc x l).filter (fun p => p.1 == k) =
      if x.1 = k then l.filter (fun p => p.1 == k) ++ [x]
      else l.filter (fun p => p.1 == k) := by
  induction l with
  | nil =>
    by_cases hk : x.1 = k <;> simp [insertDesc, List.filter_cons, hk]
  | cons y ys ih =>
    obtain ⟨hy, hys⟩ := List.pairwise_cons.mp h
    rw [insertDesc]
    by_cases hlt : y.1 < x.1
    · rw [if_pos hlt]
      by_cases hk : x.1 = k
      · have hnil : (y :: ys).filter (fun p => p.1 == k) = [] := by
          rw [List.filter_eq_nil_iff]
          intro b hb
          have hble : b.1 ≤ y.1 := by
            rcases List.mem_cons.mp hb with hb | hb
            · exact hb ▸ le_refl _
            · exact hy b hb
          have hbk : b.1 < k := lt_of_le_of_lt hble (hk ▸ hlt)
          simp [Nat.ne_of_lt hbk]
        rw [List.filter_cons_of_pos (by simp [hk]), hnil, if_pos hk]
        simp
      · rw [List.filter_cons_of_neg (by simp [hk]), if_neg hk]
    · rw [if_neg hlt]
      by_cases hk : x.1 = k
      · rw [if_pos hk, List.filter_cons, List.filter_cons, ih hys, if_pos hk]
        cases hyk : (y.1 == k) <;> simp [hyk]
      · rw [if_neg hk, List.filter_cons, List.filter_cons, ih hys, if_neg hk]

theorem sortDesc_foldl_spec (l : List (ℕ × ProjectDocument)) :
    ∀ acc : List (ℕ × ProjectDocument),
      acc.Pairwise (fun a b => b.1 ≤ a.1) →
      ((List.foldl (fun a x => insertDesc x a) acc l).Pairwise (fun a b => b.1 ≤ a.1)
       ∧ List.Perm (List.foldl (fun a x => insertDesc x a) acc l) (acc ++ l)
       ∧ ∀ k, (List.foldl (fun a x => insertDesc x a) acc l).filter (fun p => p.1 == k) =
          acc.filter (fun p => p.1 == k) ++ l.filter (fun p => p.1 == k)) := by
  induction l with
  | nil =>
    intro acc hacc
    exact ⟨hacc, by simp, by simp⟩
  | cons x xs ih =>
    intro acc hacc
    obtain ⟨ha, hb, hc⟩ := ih (insertDesc x acc) (insertDesc_pairwise x hacc)
    refine ⟨ha, ?_, ?_⟩
    · refine (hb.trans ((insertDesc_perm x acc).append_right xs)).trans ?_
      exact List.perm_middle.symm
    · intro k
      rw [List.foldl_cons, hc k, insertDesc_filter x k hacc, List.filter_cons]
      by_cases hk : x.1 = k
      · rw [if_pos hk]
        simp [hk, List.append_assoc]
      · rw [if_neg hk]
        simp [hk]

theorem sortDesc_pairwise (l : List (ℕ × ProjectDocument)) :
    (sortDesc l).Pairwise (fun a b => b.1 ≤ a.1) :=
  (sortDesc_foldl_spec l [] List.Pairwise.nil).1

theorem sortDesc_perm (l : List (ℕ × ProjectDocument)) :
    List.Perm (sortDesc l) l := by
  have h := (sortDesc_foldl_spec l [] List.Pairwise.nil).2.1
  simpa [sortDesc] using h

theorem sortDesc_filter (l : List (ℕ × ProjectDocument)) (k : ℕ) :
    (sortDesc l).filter (fun p => p.1 == k) = l.filter (fun p => p.1 == k) := by
  have h := (sortDesc_foldl_spec l [] List.Pairwise.nil).2.2 k
  simpa [sortDesc] using h

set_option maxHeartbeats 1600000 in
/-- C6: the Document Relevance Scorer gives the "roof leak" example score
exactly 2; the top-documents selection keeps at most 3 documents, is sorted
descending by score (`sortDesc` is a stable descending sort: it preserves,
for every score value, the original fetch-order sublist of documents with
that score), and every selected document comes from the project's fetched
documents with a strictly positive score. -/
theorem claim_C6_doc_scorer :
    score_doc_relevance roofDoc "roof leak" = 2
    ∧ (∀ env pid q, (get_top_project_docs env pid q 3).length ≤ 3)
    ∧ (∀ l : List (ℕ × ProjectDocument),
        (sortDesc l).Pairwise (fun a b => b.1 ≤ a.1))
    ∧ (∀ (l : List (ℕ × ProjectDocument)) (k : ℕ),
        (sortDesc l).filter (fun p => p.1 == k) = l.filter (fun p => p.1 == k))
    ∧ (∀ env pid q pr, pr ∈ get_top_project_docs env (some pid) q 3 →
        (⟨pr.1, pr.2⟩ : ProjectDocument) ∈ fetch_project_documents env pid
        ∧ 0 < score_doc_relevance ⟨pr.1, pr.2⟩ q) := by
  refine ⟨by decide, ?_, sortDesc_pairwise, sortDesc_filter, ?_⟩
  · intro env pid q
    unfold get_top_project_docs
    cases pid with
    | none => simp
    | some p =>
      dsimp only
      split_ifs <;> (simp [List.length_take]; try omega)
  · intro env pid q pr hpr
    unfold get_top_project_docs at hpr
    dsimp only at hpr
    split_ifs at hpr with h1 h2 h3
    · simp at hpr
    · simp at hpr
    · simp at hpr
    · obtain ⟨⟨n, d⟩, hmem, hprd⟩ := List.mem_map.mp hpr
      have h4 : (n, d) ∈ sortDesc ((List.map (fun d =>
          (score_doc_relevance d q, d)) (fetch_project_documents env pid)).filter
            (fun p => 0 < p.1)) := List.take_subset 3 _ hmem
      have h5 := (sortDesc_perm _).mem_iff.mp h4
      obtain ⟨hmem2, hpos⟩ := List.mem_filter.mp h5
      obtain ⟨d0, hd0, heq⟩ := List.mem_map.mp hmem2
      obtain ⟨hn, hd⟩ : score_doc_relevance d0 q = n ∧ d0 = d :=
        ⟨congrArg Prod.fst heq, congrArg Prod.snd heq⟩
      subst hd
      have hpr1 : (⟨pr.1, pr.2⟩ : ProjectDocument) = d0 := by
        rw [← hprd]
      rw [hpr1]
      refine ⟨hd0, ?_⟩
      rw [hn]
      simpa using hpos

set_option maxHeartbeats 1600000 in
/-- Witness for C6: against the store holding the roof document, the query
"roof leak" selects ("Roof Inspection", "leak detected"), which is a stored
document of positive score. -/
theorem claim_C6_doc_scorer_witness :
    (⟨"Roof Inspection", "leak detected"⟩ : ProjectDocument) ∈
        fetch_project_documents envRoof "p1"
    ∧ 0 < score_doc_relevance ⟨"Roof Inspection", "leak detected"⟩ "roof leak" :=
  claim_C6_doc_scorer.2.2.2.2 envRoof "p1" "roof leak"
    ("Roof Inspection", "leak detected") (by decide)

/-- C9 (amended): the router's intent depends only on the last message, so
two runs on the same session state agree; the Project Summary handler is
independent of the completion capability (as are the measurement,
board-foot, sheet and cost handlers, which are functions of the session
state alone); but the Document Search handler is NOT deterministic with
respect to the completion capability: with identical stores, two different
completion oracles yield different replies. -/
theorem claim_C9_determinism :
    (∀ s₁ s₂ : ChatState, lastMessage s₁ = lastMessage s₂ →
        route_from_text s₁ = route_from_text s₂)
    ∧ (∀ env₁ env₂ : Collab, ∀ s : ChatState,
        env₁.validUUID = env₂.validUUID →
        env₁.getProject = env₂.getProject →
        env₁.listMembers = env₂.listMembers →
        project_info_node env₁ s = project_info_node env₂ s)
    ∧ (∃ env₁ env₂ : Collab, ∃ s : ChatState,
        env₁.validUUID = env₂.validUUID ∧ env₁.fetchDocs = env₂.fetchDocs
        ∧ env₁.getProject = env₂.getProject ∧ env₁.listMembers = env₂.listMembers
        ∧ document_search_node env₁ s ≠ document_search_node env₂ s) := by
  refine ⟨?_, ?_, ?_⟩
  · intro s₁ s₂ h
    unfold route_from_text
    rw [h]
  · intro env₁ env₂ s h1 h2 h3
    unfold project_info_node
    rw [h1, h2, h3]
  · exact ⟨envAlpha, envBeta, stateSpecSearch, rfl, rfl, rfl, rfl, by decide⟩

set_option maxHeartbeats 1600000 in
/-- Witness for C9: two states sharing the last message "USER: hello" route
identically, and the Project Summary handler replies identically under the
two completion oracles of the fixtures. -/
theorem claim_C9_determinism_witness :
    route_from_text ⟨["USER: hello"], none, none, none⟩ =
      route_from_text ⟨["before", "USER: hello"], some "x", some "u", some "ARCHITECT"⟩
    ∧ project_info_node envAlpha stateSpecSearch =
        project_info_node envBeta stateSpecSearch :=
  ⟨claim_C9_determinism.1 ⟨["USER: hello"], none, none, none⟩
      ⟨["before", "USER: hello"], some "x", some "u", some "ARCHITECT"⟩ (by decide),
    claim_C9_determinism.2.1 envAlpha envBeta stateSpecSearch rfl rfl rfl⟩

set_option maxHeartbeats 1600000 in
/-- Counterexample for C9 as frozen: the Document Search handler is not
deterministic given only the session state and store contents — the two
fixtures agree on every store component yet produce different replies,
because the handler forwards the completion capability's output. -/
theorem claim_C9_determinism_counterexample :
    envAlpha.validUUID = envBeta.validUUID
    ∧ envAlpha.fetchDocs = envBeta.fetchDocs
    ∧ envAlpha.getProject = envBeta.getProject
    ∧ envAlpha.listMembers = envBeta.listMembers
    ∧ document_search_node envAlpha stateSpecSearch ≠
        document_search_node envBeta stateSpecSearch :=
  ⟨rfl, rfl, rfl, rfl, by decide⟩

end Pretzel
